import Mathlib

/-!
Verification development for the daily-summary digest pipeline.

The development shallowly embeds the four source modules
(email_fetcher, news_client, weather_client, summary_mailer):
pure computations become Lean functions, environment lookups become
explicit optional parameters, HTTP/IMAP/SMTP traffic is modelled by
passing the would-be request and the observed response as values, and a
Python exception escaping a function is modelled by an error value
(Option/Except).  Numeric JSON fields (temperatures, probability of
precipitation) are modelled as exact rationals.  Text is modelled as
Lean String (a list of characters).
-/

/-! ## Python string primitives

Embeddings of the Python string operations the sources use:
str.split() with no separator, str.strip(), str.join, int(str), and
truthiness of optional strings.  Whitespace is modelled by the ASCII
whitespace characters Python recognises. -/

/-- Whitespace test used by Python str.split and str.strip
(ASCII fragment: space, tab, newline, carriage return, vertical tab,
form feed). -/
def isPySpace (c : Char) : Bool :=
  c == ' ' || c == '\t' || c == '\n' || c == '\r' || c == '\x0b' || c == '\x0c'

/-- Embedding of Python str.strip(): drop leading and trailing
whitespace. -/
def pyStrip (l : List Char) : List Char :=
  ((l.dropWhile isPySpace).reverse.dropWhile isPySpace).reverse

/-- Worker for pySplit: scans the text, accumulating the current word
(in reverse) in acc, emitting it when whitespace or the end is
reached. -/
def pySplitGo : List Char → List Char → List (List Char)
  | [], acc => if acc = [] then [] else [acc.reverse]
  | c :: cs, acc =>
    if isPySpace c then
      if acc = [] then pySplitGo cs [] else acc.reverse :: pySplitGo cs []
    else
      pySplitGo cs (c :: acc)

/-- Embedding of Python str.split() without a separator: the list of
maximal nonempty whitespace-free runs, in order. -/
def pySplit (l : List Char) : List (List Char) :=
  pySplitGo l []

/-- Embedding of Python sep.join(words) on character lists. -/
def pyJoin (sep : List Char) : List (List Char) → List Char
  | [] => []
  | [w] => w
  | w :: w2 :: ws => w ++ sep ++ pyJoin sep (w2 :: ws)

/-- Embedding of Python sep.join(strings) on Lean strings. -/
def pyJoinStr (sep : String) : List String → String
  | [] => ""
  | [w] => w
  | w :: w2 :: ws => w ++ sep ++ pyJoinStr sep (w2 :: ws)

/-- Embedding of Python s.startswith(t), computed on the character
lists of the two strings. -/
def strStartsWith (s t : String) : Bool :=
  t.data.isPrefixOf s.data

/-- Digit value of a character, none if it is not an ASCII digit. -/
def digitVal (c : Char) : Option Nat :=
  if c.isDigit then some (c.toNat - 48) else none

/-- Worker for parseDigits: folds decimal digits into an accumulator,
failing on any non-digit. -/
def parseDigitsGo : List Char → Nat → Option Nat
  | [], acc => some acc
  | c :: cs, acc =>
    match digitVal c with
    | some d => parseDigitsGo cs (acc * 10 + d)
    | none => none

/-- Parse a nonempty all-digit run as a natural number. -/
def parseDigits : List Char → Option Nat
  | [] => none
  | l => parseDigitsGo l 0

/-- Embedding of Python int(str): strip whitespace, optional sign,
decimal digits; none models the ValueError int raises on malformed
input. -/
def pyInt (s : String) : Option Int :=
  match pyStrip s.data with
  | '-' :: ds => (parseDigits ds).map (fun n => -(n : Int))
  | '+' :: ds => (parseDigits ds).map (fun n => (n : Int))
  | ds => (parseDigits ds).map (fun n => (n : Int))

/-- Python truthiness of an optional string: None and the empty string
are falsy. -/
def strTruthy : Option String → Bool
  | none => false
  | some s => s != ""

/-- Python truthiness of an optional list: None and the empty list are
falsy. -/
def listTruthy {α : Type} : Option (List α) → Bool
  | none => false
  | some l => !l.isEmpty

/-! ## email_fetcher

The snippet computation of _extract_snippet.  The MIME walk that
locates the plain-text body part and the charset decoding act on the
external email.message object; a message is modelled by the decoded
subject and the decoded body text that walk produces, so the embedded
function starts from the body text (the final two lines of the
source). -/

/-- Embedding of the collapse step of _extract_snippet:
the Python expression " ".join(text.strip().split()). -/
def collapseWS (l : List Char) : List Char :=
  pyJoin [' '] (pySplit (pyStrip l))

/-- Embedding of _extract_snippet from the decoded body text:
collapse whitespace, then keep the first 100 characters
(Python snippet[:100]). -/
def extract_snippet (s : String) : String :=
  String.mk ((collapseWS s.data).take 100)

example : extract_snippet "  hello   \n  world  " = "hello world" := by decide
example : extract_snippet "" = "" := by decide
example : (extract_snippet (String.mk (List.replicate 120 'a'))).length = 100 := by decide

/-! ## email_fetcher: fetch_unread

The IMAP session is external: the embedding takes the outcomes the
server produced for this pass (the status and identifier list of the
search command, and per identifier the status and parsed message of
the fetch command) and returns the list of (subject, snippet) pairs
the source builds from them.  Connection, login, mailbox selection,
flag stores and session release are protocol side effects carrying no
data into the result.  A hard connection or authentication failure
raises out of the function before the search and is outside this
value-level model. -/

/-- Status of an IMAP command, OK or anything else. -/
inductive ImapStatus : Type
  | OK : ImapStatus
  | NO : ImapStatus
deriving DecidableEq

/-- Parsed unread message: decoded subject and decoded plain-text
body. -/
structure EmailMsg : Type where
  subject : String
  bodyText : String
deriving DecidableEq

/-- Outcomes the IMAP server produced for one fetch_unread pass. -/
structure ImapConn : Type where
  searchStatus : ImapStatus
  searchIds : List Nat
  fetchStatus : Nat → ImapStatus
  fetchMsg : Nat → EmailMsg

/-- Embedding of fetch_unread after login and mailbox selection:
a non-OK search yields [], a non-OK per-message fetch skips that
message, every other identifier contributes its (subject, snippet)
pair in order. -/
def fetch_unread (conn : ImapConn) : List (String × String) :=
  if conn.searchStatus ≠ ImapStatus.OK then []
  else
    conn.searchIds.filterMap (fun n =>
      if conn.fetchStatus n ≠ ImapStatus.OK then none
      else some ((conn.fetchMsg n).subject, extract_snippet (conn.fetchMsg n).bodyText))

/-! ## news_client

The HTTP call is external: the embedding returns the request the
source would issue together with the headline list it computes from
the articles array of the response, or the error it raises first.
An error value means the function raised before issuing any request.
A keywords argument that was a single Python string s is modelled as
the list [s], mirroring the isinstance normalisation in the source. -/

/-- Entry of the articles array of the response; title and url may be
missing. -/
structure Article : Type where
  title : Option String
  url : Option String
deriving DecidableEq

/-- Returned headline entry with both fields present. -/
structure Headline : Type where
  title : String
  url : String
deriving DecidableEq

/-- Query parameters of the request fetch_top_headlines sends. -/
structure NewsRequest : Type where
  apiKey : String
  pageSize : Int
  q : Option String
  category : Option String
deriving DecidableEq

/-- Errors fetch_top_headlines raises before any network action:
EnvironmentError for a missing credential, ValueError for missing
selectors. -/
inductive NewsError : Type
  | keyMissing : NewsError
  | noSelector : NewsError
deriving DecidableEq

/-- Filtering loop over the articles array: iterate over
articles[:limit] and keep entries whose title and url are both
truthy. -/
def collectArticles (lim : Int) (articles : List Article) : List Headline :=
  (articles.take lim.toNat).filterMap (fun a =>
    if strTruthy a.title && strTruthy a.url then
      some { title := a.title.getD "", url := a.url.getD "" }
    else none)

/-- Embedding of fetch_top_headlines: credential check, selector
check, limit clamping, request construction, then response
filtering. -/
def fetch_top_headlines (apiKeyEnv : Option String) (keywords : Option (List String))
    (category : Option String) (limit : Int) (articles : List Article) :
    Except NewsError (NewsRequest × List Headline) :=
  if strTruthy apiKeyEnv = false then Except.error NewsError.keyMissing
  else if !listTruthy keywords && !strTruthy category then Except.error NewsError.noSelector
  else
    let lim : Int := max 3 (min 5 limit)
    let req : NewsRequest :=
      { apiKey := apiKeyEnv.getD ""
        pageSize := lim
        q := if listTruthy keywords then some (pyJoinStr " " (keywords.getD [])) else none
        category := if listTruthy keywords then none
                    else if strTruthy category then category else none }
    Except.ok (req, collectArticles lim articles)

example :
    fetch_top_headlines (some "k") (some ["a", "b"]) (some "tech") 9
      [⟨some "t", some "u"⟩, ⟨some "", some "v"⟩, ⟨none, some "w"⟩] =
    Except.ok ({ apiKey := "k", pageSize := 5, q := some "a b", category := none },
      [{ title := "t", url := "u" }]) := rfl

example :
    fetch_top_headlines none (some ["a"]) none 5 [] = Except.error NewsError.keyMissing := rfl

/-! ## weather_client

The HTTP call is external: the embedding takes the list field of the
forecast response.  A forecast sample carries the fields the source
reads: dt_txt (possibly missing), main.temp, weather[0].description
and the optional pop.  Today is the UTC date string
datetime.utcnow().date().isoformat() computes, passed as a parameter.
The unguarded Python division sum(...) / len(...) on an empty working
set raises ZeroDivisionError; the embedding returns none there. -/

/-- Forecast sample with the fields get_daily_weather reads. -/
structure WSample : Type where
  dtTxt : Option String
  temp : ℚ
  description : String
  pop : Option ℚ
deriving DecidableEq

/-- Result record of get_daily_weather. -/
structure WeatherResult : Type where
  temperature : ℚ
  condition : String
  chanceOfRain : ℚ
deriving DecidableEq

/-- Embedding of the working-set selection: the samples whose dt_txt
starts with todays date, else the first sample of the full list. -/
def workingSet (today : String) (l : List WSample) : List WSample :=
  let todays := l.filter (fun e => strStartsWith (e.dtTxt.getD "") today)
  if todays = [] then l.take 1 else todays

/-- Maximum of a list of naturals, 0 when empty. -/
def maxNat (l : List Nat) : Nat :=
  l.foldr max 0

/-- Embedding of Counter(xs).most_common(1)[0][0]: Counter keys keep
first-insertion order and most_common breaks count ties toward
earlier insertion, so the result is the first element of xs whose
multiplicity is maximal; none when xs is empty. -/
def counterMostCommon (xs : List String) : Option String :=
  xs.find? (fun s => xs.count s == maxNat (xs.map (fun t => xs.count t)))

/-- Embedding of Python max(iterable, default=d): d when empty, else
the greatest element. -/
def pyMaxD (d : ℚ) : List ℚ → ℚ
  | [] => d
  | a :: t => t.foldl max a

/-- Embedding of get_daily_weather after the response arrived: select
the working set, then average temperatures, take the most common
description and the maximal pop (0.0 standing in for a missing pop).
On an empty working set the source divides by zero; modelled as
none. -/
def get_daily_weather (today : String) (l : List WSample) : Option WeatherResult :=
  if workingSet today l = [] then none
  else
    some
      { temperature := ((workingSet today l).map (fun e => e.temp)).sum /
          ((workingSet today l).length : ℚ)
        condition :=
          (counterMostCommon ((workingSet today l).map (fun e => e.description))).getD ""
        chanceOfRain := pyMaxD 0 ((workingSet today l).map (fun e => e.pop.getD 0)) }

example :
    (get_daily_weather "2026-02-03"
      [⟨some "2026-02-03 00:00:00", 10, "clear sky", some 1⟩,
       ⟨some "2026-02-03 03:00:00", 12, "clear sky", some 1⟩,
       ⟨some "2026-02-04 00:00:00", 99, "rain", some 1⟩]).map (fun r => r.condition) =
    some "clear sky" := by decide

example : get_daily_weather "2026-02-03" [] = none := by decide

/-! ## summary_mailer

build_body is pure.  For send_summary_email the SMTP session is
external: the embedding resolves the environment and either returns
the error raised before any network action (the int conversion of the
port string, then the configuration check) or the complete send
action (connection parameters, credentials, envelope and both
bodies) the source performs. -/

/-- Bullet-list rendering used by both sections of the text body: one
line per entry with a dash-space marker. -/
def bulletLines (xs : List String) : String :=
  String.join (xs.map (fun x => "- " ++ x ++ "\n"))

/-- List-item rendering used by both sections of the HTML body. -/
def htmlItems (xs : List String) : String :=
  String.join (xs.map (fun x => "<li>" ++ x ++ "</li>"))

/-- Embedding of build_body: the (text, html) pair assembled from the
items, the weather text and the headlines. -/
def build_body (email_items : List String) (weather : String) (headlines : List String) :
    String × String :=
  let items_list := String.join (email_items.map (fun item => "- " ++ item ++ "\n"))
  let headlines_list := String.join (headlines.map (fun h => "- " ++ h ++ "\n"))
  let text_body :=
    "Daily Summary\n\n" ++ "Weather:\n" ++ weather ++ "\n\n" ++
      "Headlines:\n" ++ headlines_list ++ "\n" ++ "Items:\n" ++ items_list
  let html_body :=
    "<html><body>" ++ "<h1>Daily Summary</h1>" ++
      "<h2>Weather</h2><p>" ++ weather ++ "</p>" ++
      "<h2>Headlines</h2><ul>" ++ String.join (headlines.map (fun h => "<li>" ++ h ++ "</li>")) ++
      "</ul>" ++ "<h2>Items</h2><ul>" ++
      String.join (email_items.map (fun item => "<li>" ++ item ++ "</li>")) ++
      "</ul>" ++ "</body></html>"
  (text_body, html_body)

/-- Environment slice send_summary_email reads; none models an unset
variable. -/
structure SmtpEnv : Type where
  host : Option String
  port : Option String
  user : Option String
  password : Option String
  from_addr : Option String
  to_addr : Option String
deriving DecidableEq

/-- Errors send_summary_email raises before opening the transport:
the ValueError of int() on a malformed port string, and the
ValueError of the configuration check. -/
inductive MailError : Type
  | badPort : MailError
  | missingConfig : MailError
deriving DecidableEq

/-- Complete outbound send the source performs once configuration
resolved: connect host:port, STARTTLS, login, send the two-part
message. -/
structure SmtpSendAction : Type where
  host : String
  port : Int
  user : String
  password : String
  from_addr : String
  to_addr : String
  textBody : String
  htmlBody : String
deriving DecidableEq

/-- Embedding of send_summary_email up to the transport boundary:
resolve the environment (the port string defaults to 587 and is
converted by int() as it is read), check the five fields host, user,
password, from-address and to-address for truthiness, build the
bodies, and return the send action; an error value means the source
raised before any network action. -/
def send_summary_email (env : SmtpEnv) (email_items : List String) (weather : String)
    (headlines : List String) : Except MailError SmtpSendAction :=
  match pyInt (env.port.getD "587") with
  | none => Except.error MailError.badPort
  | some p =>
    if strTruthy env.host && strTruthy env.user && strTruthy env.password &&
        strTruthy env.from_addr && strTruthy env.to_addr then
      let bodies := build_body email_items weather headlines
      Except.ok
        { host := env.host.getD "", port := p, user := env.user.getD ""
          password := env.password.getD "", from_addr := env.from_addr.getD ""
          to_addr := env.to_addr.getD "", textBody := bodies.1, htmlBody := bodies.2 }
    else Except.error MailError.missingConfig

example :
    send_summary_email ⟨some "h", none, some "u", some "p", some "f", some "t"⟩ [] "w" [] =
    Except.ok { host := "h", port := 587, user := "u", password := "p", from_addr := "f"
                to_addr := "t", textBody := (build_body [] "w" []).1
                htmlBody := (build_body [] "w" []).2 } := rfl

example :
    send_summary_email ⟨none, some "587", some "u", some "p", some "f", some "t"⟩ [] "w" [] =
    Except.error MailError.missingConfig := rfl

/-! ## Helper lemmas -/

/-- A filterMap whose function keeps exactly the elements satisfying a
test, applying g to them, is the map of g over the filter. -/
theorem filterMap_ite_eq_map_filter {α β : Type} (c : α → Bool) (g : α → β) (l : List α) :
    (l.filterMap fun a => if c a then some (g a) else none) = (l.filter c).map g := by
  induction l with
  | nil => rfl
  | cons a t ih =>
    by_cases hca : c a = true
    · simp [List.filterMap_cons, List.filter_cons, hca, ih]
    · simp [List.filterMap_cons, List.filter_cons, hca, ih]

/-- Truthiness of an optional string forces a nonempty value. -/
theorem strTruthy_getD_ne (o : Option String) (h : strTruthy o = true) : o.getD "" ≠ "" := by
  cases o with
  | none => simp [strTruthy] at h
  | some s => simpa [strTruthy, bne_iff_ne] using h

/-- Truthiness of an optional string lets getD recover the value. -/
theorem strTruthy_some_getD (o : Option String) (h : strTruthy o = true) :
    some (o.getD "") = o := by
  cases o with
  | none => simp [strTruthy] at h
  | some s => rfl

/-! ## Claim theorems: composer and dispatcher -/

/-- C6: build_body is deterministic, and its text and HTML outputs
decompose into the fixed section order Weather, Headlines, Items,
sections separated by blank lines, each headline and item one
dash-space bullet (text) or list item (HTML). -/
theorem build_body_deterministic_layout (email_items : List String) (weather : String)
    (headlines : List String) :
    build_body email_items weather headlines = build_body email_items weather headlines ∧
    (build_body email_items weather headlines).1 =
      "Daily Summary\n\n" ++ "Weather:\n" ++ weather ++ "\n\n" ++
        "Headlines:\n" ++ bulletLines headlines ++ "\n" ++
        "Items:\n" ++ bulletLines email_items ∧
    (build_body email_items weather headlines).2 =
      "<html><body>" ++ "<h1>Daily Summary</h1>" ++
        "<h2>Weather</h2><p>" ++ weather ++ "</p>" ++
        "<h2>Headlines</h2><ul>" ++ htmlItems headlines ++ "</ul>" ++
        "<h2>Items</h2><ul>" ++ htmlItems email_items ++ "</ul>" ++ "</body></html>" :=
  ⟨rfl, rfl, rfl⟩

/-- C2 counterexample: with the port variable unset and the other five
settings present, send_summary_email does not raise; it proceeds to
the transport with the default port 587, refuting the claim that the
absence of any of the six settings is a configuration error. -/
theorem smtp_missing_port_no_error :
    send_summary_email
        ⟨some "smtp.example.com", none, some "user", some "pw",
          some "from@example.com", some "to@example.com"⟩ [] "sunny" [] =
      Except.ok
        { host := "smtp.example.com", port := 587, user := "user", password := "pw"
          from_addr := "from@example.com", to_addr := "to@example.com"
          textBody := (build_body [] "sunny" []).1
          htmlBody := (build_body [] "sunny" []).2 } := rfl

/-- C2 (amended): if any of the five checked settings host, user,
password, from-address, to-address is absent or empty,
send_summary_email raises before any transport action; the port is
not among the checked settings and merely defaults. -/
theorem smtp_missing_required_config_raises (env : SmtpEnv) (items : List String)
    (weather : String) (headlines : List String)
    (h : strTruthy env.host = false ∨ strTruthy env.user = false ∨
      strTruthy env.password = false ∨ strTruthy env.from_addr = false ∨
      strTruthy env.to_addr = false) :
    ∃ e, send_summary_email env items weather headlines = Except.error e := by
  rcases hp : pyInt (env.port.getD "587") with _ | p
  · exact ⟨MailError.badPort, by simp [send_summary_email, hp]⟩
  · refine ⟨MailError.missingConfig, ?_⟩
    have hcond : (strTruthy env.host && strTruthy env.user && strTruthy env.password &&
        strTruthy env.from_addr && strTruthy env.to_addr) = false := by
      rcases h with h | h | h | h | h <;> simp [h]
    simp [send_summary_email, hp, hcond]

/-- C2 witness: a concrete environment with the host unset makes
send_summary_email raise. -/
theorem smtp_missing_required_config_raises_witness :
    ∃ e, send_summary_email ⟨none, some "587", some "u", some "p", some "f", some "t"⟩
      [] "w" [] = Except.error e :=
  smtp_missing_required_config_raises
    ⟨none, some "587", some "u", some "p", some "f", some "t"⟩ [] "w" [] (Or.inl rfl)

/-! ## Claim theorems: news source -/

/-- C10: the credential check of fetch_top_headlines precedes argument
validation; with the API key unset or empty the configuration error is
raised for every combination of selectors, including none at all. -/
theorem news_key_checked_first (keywords : Option (List String)) (category : Option String)
    (limit : Int) (articles : List Article) :
    fetch_top_headlines none keywords category limit articles =
      Except.error NewsError.keyMissing ∧
    fetch_top_headlines (some "") keywords category limit articles =
      Except.error NewsError.keyMissing :=
  ⟨rfl, rfl⟩

/-- C7: with the credential present and neither keywords nor category
truthy, fetch_top_headlines raises the caller error; the error return
carries no request, so no network call is made on this path. -/
theorem news_no_selector_error (apiKeyEnv : Option String) (keywords : Option (List String))
    (category : Option String) (limit : Int) (articles : List Article)
    (hkey : strTruthy apiKeyEnv = true) (hkw : listTruthy keywords = false)
    (hcat : strTruthy category = false) :
    fetch_top_headlines apiKeyEnv keywords category limit articles =
      Except.error NewsError.noSelector := by
  simp [fetch_top_headlines, hkey, hkw, hcat]

/-- C7 witness: a concrete call with a key and no selectors raises the
caller error. -/
theorem news_no_selector_error_witness :
    strTruthy (some "k") = true ∧ listTruthy (none : Option (List String)) = false ∧
    strTruthy (none : Option String) = false ∧
    fetch_top_headlines (some "k") none none 5 [] = Except.error NewsError.noSelector :=
  ⟨rfl, rfl, rfl, news_no_selector_error (some "k") none none 5 [] rfl rfl rfl⟩

/-- C8: when keywords and category are both provided, keywords win:
the request query is the keyword terms joined by single spaces and the
category parameter is not sent. -/
theorem news_keywords_precedence (apiKeyEnv : Option String) (kw : List String)
    (category : Option String) (limit : Int) (articles : List Article)
    (hkey : strTruthy apiKeyEnv = true) (hkw : kw ≠ []) :
    ∃ req res,
      fetch_top_headlines apiKeyEnv (some kw) category limit articles =
        Except.ok (req, res) ∧
      req.q = some (pyJoinStr " " kw) ∧ req.category = none := by
  have hne : kw.isEmpty = false := by simpa using hkw
  refine ⟨{ apiKey := apiKeyEnv.getD "", pageSize := max 3 (min 5 limit)
            q := some (pyJoinStr " " kw), category := none },
    collectArticles (max 3 (min 5 limit)) articles, ?_, rfl, rfl⟩
  simp [fetch_top_headlines, hkey, listTruthy, hne]

/-- C8 witness: a concrete call with both selectors produces a request
whose query joins the keywords and carries no category. -/
theorem news_keywords_precedence_witness :
    ∃ req res,
      fetch_top_headlines (some "k") (some ["a", "b"]) (some "technology") 5
          [⟨some "t", some "u"⟩] = Except.ok (req, res) ∧
      req.q = some (pyJoinStr " " ["a", "b"]) ∧ req.category = none :=
  news_keywords_precedence (some "k") ["a", "b"] (some "technology") 5
    [⟨some "t", some "u"⟩] rfl (by decide)

/-! ## Claim theorems: mail source -/

/-- C9: in fetch_unread a failed search yields the empty list rather
than an error, and a failed per-message fetch skips exactly that
message: the result is the in-order list of (subject, snippet) pairs
of the identifiers whose fetch succeeded. -/
theorem fetch_unread_partial_failure (conn : ImapConn) :
    (conn.searchStatus ≠ ImapStatus.OK → fetch_unread conn = []) ∧
    (conn.searchStatus = ImapStatus.OK →
      fetch_unread conn =
        (conn.searchIds.filter fun n => conn.fetchStatus n = ImapStatus.OK).map
          fun n => ((conn.fetchMsg n).subject, extract_snippet (conn.fetchMsg n).bodyText)) := by
  constructor
  · intro h
    simp [fetch_unread, h]
  · intro h
    have hids : ∀ ids : List Nat,
        (ids.filterMap fun n =>
          if conn.fetchStatus n = ImapStatus.OK
          then some ((conn.fetchMsg n).subject, extract_snippet (conn.fetchMsg n).bodyText)
          else none) =
        (ids.filter fun n => conn.fetchStatus n = ImapStatus.OK).map
          fun n => ((conn.fetchMsg n).subject, extract_snippet (conn.fetchMsg n).bodyText) := by
      intro ids
      induction ids with
      | nil => rfl
      | cons a t ih =>
        by_cases ha : conn.fetchStatus a = ImapStatus.OK <;>
          simp [List.filterMap_cons, List.filter_cons, ha, ih]
    unfold fetch_unread
    rw [if_neg (by simp [h])]
    simp only [ne_eq, ite_not]
    exact hids conn.searchIds

/-- C9 witness: a connection whose search command failed yields the
empty result. -/
theorem fetch_unread_partial_failure_witness :
    fetch_unread ⟨ImapStatus.NO, [1, 2], fun _ => ImapStatus.OK, fun _ => ⟨"s", "b"⟩⟩ = [] :=
  (fetch_unread_partial_failure
    ⟨ImapStatus.NO, [1, 2], fun _ => ImapStatus.OK, fun _ => ⟨"s", "b"⟩⟩).1 (by decide)

/-- C4: a successful fetch_top_headlines call returns at most
min(5, max(3, requested)) entries, that clamped value is also the
page size requested of the API, every returned entry has nonempty
title and url (entries missing either are dropped), and retained
entries keep the order of the articles array. -/
theorem headlines_clamped_valid_ordered
    (apiKeyEnv : Option String) (keywords : Option (List String)) (category : Option String)
    (limit : Int) (articles : List Article) (req : NewsRequest) (res : List Headline)
    (h : fetch_top_headlines apiKeyEnv keywords category limit articles =
      Except.ok (req, res)) :
    res.length ≤ (min 5 (max 3 limit)).toNat ∧
    req.pageSize = min 5 (max 3 limit) ∧
    (∀ hd ∈ res, hd.title ≠ "" ∧ hd.url ≠ "") ∧
    List.Sublist
      (res.map fun hd => ((some hd.title : Option String), (some hd.url : Option String)))
      (articles.map fun a => (a.title, a.url)) := by
  have hclamp : max 3 (min 5 limit) = min 5 (max 3 limit) := by omega
  unfold fetch_top_headlines at h
  by_cases h1 : strTruthy apiKeyEnv = false
  · rw [if_pos h1] at h
    exact absurd h (by simp)
  · rw [if_neg h1] at h
    by_cases h2 : (!listTruthy keywords && !strTruthy category) = true
    · rw [if_pos h2] at h
      exact absurd h (by simp)
    · rw [if_neg h2] at h
      simp only [Except.ok.injEq, Prod.mk.injEq] at h
      obtain ⟨hreq, hres⟩ := h
      subst hreq
      subst hres
      refine ⟨?_, ?_, ?_, ?_⟩
      · rw [← hclamp]
        exact le_trans (List.length_filterMap_le _ _)
          (by simp)
      · rw [← hclamp]
      · intro hd hmem
        unfold collectArticles at hmem
        rw [List.mem_filterMap] at hmem
        obtain ⟨a, _, hfa⟩ := hmem
        by_cases hc : (strTruthy a.title && strTruthy a.url) = true
        · rw [if_pos hc] at hfa
          obtain ⟨ht, hu⟩ := Bool.and_eq_true_iff.mp hc
          cases hfa
          exact ⟨strTruthy_getD_ne _ ht, strTruthy_getD_ne _ hu⟩
        · rw [if_neg hc] at hfa
          exact absurd hfa (by simp)
      · have heq : (collectArticles (max 3 (min 5 limit)) articles).map
              (fun hd => ((some hd.title : Option String), (some hd.url : Option String)))
            = ((articles.take (max 3 (min 5 limit)).toNat).filter
                (fun a => strTruthy a.title && strTruthy a.url)).map
                (fun a => (a.title, a.url)) := by
          unfold collectArticles
          rw [filterMap_ite_eq_map_filter, List.map_map]
          apply List.map_congr_left
          intro a hmem
          obtain ⟨ht, hu⟩ := Bool.and_eq_true_iff.mp (List.mem_filter.mp hmem).2
          simp [Function.comp, strTruthy_some_getD _ ht, strTruthy_some_getD _ hu]
        rw [heq]
        exact List.Sublist.map _ ((List.filter_sublist _).trans (List.take_sublist _ _))

/-- C4 witness: a concrete successful call with requested limit 7 is
clamped to five entries and the single valid article passes through. -/
theorem headlines_clamped_valid_ordered_witness :
    ([⟨"t", "u"⟩] : List Headline).length ≤ (min 5 (max 3 (7 : Int))).toNat :=
  (headlines_clamped_valid_ordered (some "k") (some ["a"]) none 7 [⟨some "t", some "u"⟩]
    { apiKey := "k", pageSize := 5, q := some "a", category := none } [⟨"t", "u"⟩] rfl).1

/-! ## Helper lemmas for the weather aggregation -/

/-- Maximum of a nonempty list of naturals is attained. -/
theorem maxNat_mem (l : List Nat) (h : l ≠ []) : maxNat l ∈ l := by
  induction l with
  | nil => exact absurd rfl h
  | cons a t ih =>
    by_cases ht : t = []
    · subst ht
      simp [maxNat]
    · rcases max_choice a (maxNat t) with hm | hm
      · have he : maxNat (a :: t) = a := by simpa [maxNat] using hm
        rw [he]
        exact List.mem_cons_self a t
      · have he : maxNat (a :: t) = maxNat t := by simpa [maxNat] using hm
        rw [he]
        exact List.mem_cons_of_mem a (ih ht)

/-- Every element of a list of naturals is at most its maximum. -/
theorem le_maxNat (l : List Nat) : ∀ x ∈ l, x ≤ maxNat l := by
  induction l with
  | nil => simp
  | cons a t ih =>
    intro x hx
    rcases List.mem_cons.mp hx with rfl | hx'
    · simp only [maxNat, List.foldr_cons]
      exact Nat.le_max_left _ _
    · refine le_trans (ih x hx') ?_
      simp only [maxNat, List.foldr_cons]
      exact Nat.le_max_right _ _

/-- Position of the first occurrence of a string in a list (length of
the list when absent); formalises first-encountered order. -/
def strIdx (a : String) : List String → Nat
  | [] => 0
  | b :: t => if a = b then 0 else strIdx a t + 1

/-- The element find? returns sits no later than any other element
satisfying the predicate. -/
theorem find?_first_strIdx (p : String → Bool) (l : List String) (r : String)
    (hfind : l.find? p = some r) :
    ∀ s ∈ l, p s = true → strIdx r l ≤ strIdx s l := by
  induction l with
  | nil => simp at hfind
  | cons a t ih =>
    by_cases hpa : p a = true
    · rw [List.find?_cons_of_pos _ hpa] at hfind
      cases hfind
      intro s hs hps
      simp [strIdx]
    · rw [List.find?_cons_of_neg _ (by simpa using hpa)] at hfind
      have hpr : p r = true := List.find?_some hfind
      have hra : r ≠ a := fun he => hpa (he ▸ hpr)
      intro s hs hps
      have hsa : s ≠ a := fun he => hpa (he ▸ hps)
      rcases List.mem_cons.mp hs with rfl | hst
      · exact absurd hps hpa
      · simp only [strIdx, if_neg hra, if_neg hsa]
        exact Nat.succ_le_succ (ih hfind s hst hps)

/-- Left fold of max lands on one of the candidates. -/
theorem foldl_max_mem (t : List ℚ) (a : ℚ) : t.foldl max a ∈ a :: t := by
  induction t generalizing a with
  | nil => simp
  | cons b t ih =>
    rw [List.foldl_cons]
    rcases List.mem_cons.mp (ih (max a b)) with h | h
    · rcases max_choice a b with hm | hm
      · rw [h, hm]
        exact List.mem_cons_self a _
      · rw [h, hm]
        exact List.mem_cons_of_mem a (List.mem_cons_self b t)
    · exact List.mem_cons_of_mem a (List.mem_cons_of_mem b h)

/-- Left fold of max bounds every candidate from above. -/
theorem le_foldl_max (t : List ℚ) (a : ℚ) : ∀ x ∈ a :: t, x ≤ t.foldl max a := by
  induction t generalizing a with
  | nil =>
    intro x hx
    simp at hx
    simp [hx]
  | cons b t ih =>
    intro x hx
    rw [List.foldl_cons]
    rcases List.mem_cons.mp hx with rfl | hx'
    · exact le_trans (le_max_left x b) (ih (max x b) _ (List.mem_cons_self _ _))
    · rcases List.mem_cons.mp hx' with rfl | hx''
      · exact le_trans (le_max_right a x) (ih (max a x) _ (List.mem_cons_self _ _))
      · exact ih (max a b) x (List.mem_cons_of_mem _ hx'')

/-- Characterisation of the embedded Counter.most_common(1)[0][0]: on a
nonempty list it returns an element of maximal multiplicity, and among
elements of that multiplicity it is the first-encountered one. -/
theorem counterMostCommon_spec (xs : List String) (h : xs ≠ []) :
    ∃ r, counterMostCommon xs = some r ∧ r ∈ xs ∧
      (∀ s ∈ xs, xs.count s ≤ xs.count r) ∧
      (∀ s ∈ xs, xs.count s = xs.count r → strIdx r xs ≤ strIdx s xs) := by
  have hmax : maxNat (xs.map fun t => xs.count t) ∈ xs.map fun t => xs.count t :=
    maxNat_mem _ (by simpa using h)
  obtain ⟨s₀, hs₀, hcount⟩ := List.mem_map.mp hmax
  have hfind : (xs.find? fun s => xs.count s == maxNat (xs.map fun t => xs.count t)).isSome := by
    rw [List.find?_isSome]
    exact ⟨s₀, hs₀, by simp [hcount]⟩
  obtain ⟨r, hr⟩ := Option.isSome_iff_exists.mp hfind
  have hcr : xs.count r = maxNat (xs.map fun t => xs.count t) := by
    simpa using List.find?_some hr
  refine ⟨r, hr, List.mem_of_find?_eq_some hr, ?_, ?_⟩
  · intro s hs
    rw [hcr]
    exact le_maxNat _ _ (List.mem_map.mpr ⟨s, hs, rfl⟩)
  · intro s hs hcs
    exact find?_first_strIdx _ _ _ hr s hs (by simp [hcs, hcr])

/-! ## Claim theorems: weather source -/

/-- C1 counterexample: on an empty forecast list the call does not
yield a degraded-but-valid result: the fallback slice of an empty list
is empty, the working set is empty, and the unguarded division by the
working-set length raises; the embedding returns none there. -/
theorem weather_empty_response_fails : get_daily_weather "2026-02-03" [] = none := rfl

/-- Nonempty responses always leave a nonempty working set, so the
call returns a result. -/
theorem weather_nonempty_isSome (today : String) (l : List WSample)
    (hl : l ≠ []) : (get_daily_weather today l).isSome = true := by
  have hws : workingSet today l ≠ [] := by
    unfold workingSet
    by_cases hf : (l.filter fun e => strStartsWith (e.dtTxt.getD "") today) = []
    · rw [hf, if_pos rfl]
      cases l with
      | nil => exact absurd rfl hl
      | cons a t => simp
    · intro hcontra
      rw [if_neg hf] at hcontra
      exact hf hcontra
  simp [get_daily_weather, hws]

/-- C1 (amended): get_daily_weather partitions samples by whether
their timestamp starts with todays UTC date, falls back to the first
sample of the full list when no sample matches, so the working set is
nonempty and the call succeeds whenever any data was returned; but on
an empty response the call fails on the unguarded division instead of
producing a degraded result. -/
theorem weather_working_set_spec (today : String) (l : List WSample) :
    (((l.filter fun e => strStartsWith (e.dtTxt.getD "") today) ≠ [] ∧
        workingSet today l = l.filter fun e => strStartsWith (e.dtTxt.getD "") today) ∨
      ((l.filter fun e => strStartsWith (e.dtTxt.getD "") today) = [] ∧
        workingSet today l = l.take 1)) ∧
    (l ≠ [] → (get_daily_weather today l).isSome = true) := by
  constructor
  · by_cases hf : (l.filter fun e => strStartsWith (e.dtTxt.getD "") today) = []
    · right
      exact ⟨hf, by simp [workingSet, hf]⟩
    · left
      exact ⟨hf, by simp [workingSet, hf]⟩
  · exact weather_nonempty_isSome today l

/-- C1 witness: a one-sample response dated outside today still yields
a result through the first-sample fallback. -/
theorem weather_working_set_spec_witness :
    (get_daily_weather "2026-02-03" [⟨some "2026-02-04 00:00:00", 5, "mist", none⟩]).isSome =
      true :=
  (weather_working_set_spec "2026-02-03"
    [⟨some "2026-02-04 00:00:00", 5, "mist", none⟩]).2 (by decide)

/-- C5: on a nonempty working set, get_daily_weather returns the
arithmetic mean of the working-set temperatures, the most frequent
description with ties broken by first-encountered order (hence the
shared description when all samples agree), and the maximum of the
per-sample pop values (a missing pop standing in as 0.0), which is
exactly 0.0 when no sample carries a pop. -/
theorem weather_aggregation_spec (today : String) (l : List WSample) (ws : List WSample)
    (hw : workingSet today l = ws) (h : ws ≠ []) :
    ∃ res, get_daily_weather today l = some res ∧
      res.temperature = (ws.map fun e => e.temp).sum / (ws.length : ℚ) ∧
      (∃ r, counterMostCommon (ws.map fun e => e.description) = some r ∧
        res.condition = r ∧ r ∈ (ws.map fun e => e.description) ∧
        (∀ s ∈ ws.map fun e => e.description,
          (ws.map fun e => e.description).count s ≤
            (ws.map fun e => e.description).count r) ∧
        (∀ s ∈ ws.map fun e => e.description,
          (ws.map fun e => e.description).count s =
              (ws.map fun e => e.description).count r →
            strIdx r (ws.map fun e => e.description) ≤
              strIdx s (ws.map fun e => e.description))) ∧
      (∀ d, (∀ e ∈ ws, e.description = d) → res.condition = d) ∧
      res.chanceOfRain ∈ (ws.map fun e => e.pop.getD 0) ∧
      (∀ e ∈ ws, e.pop.getD 0 ≤ res.chanceOfRain) ∧
      ((∀ e ∈ ws, e.pop = none) → res.chanceOfRain = 0) := by
  subst hw
  obtain ⟨r, hr, hrmem, hrle, hrtie⟩ :=
    counterMostCommon_spec ((workingSet today l).map fun e => e.description)
      (by simpa using h)
  rcases hpm : (workingSet today l).map (fun e => e.pop.getD 0) with _ | ⟨a, t⟩
  · exact absurd (by simpa using hpm) h
  · have hchance_mem : pyMaxD 0 ((workingSet today l).map fun e => e.pop.getD 0) ∈
        (workingSet today l).map fun e => e.pop.getD 0 := by
      rw [hpm]
      simpa [pyMaxD] using foldl_max_mem t a
    have hchance_le : ∀ e ∈ workingSet today l,
        e.pop.getD 0 ≤ pyMaxD 0 ((workingSet today l).map fun e => e.pop.getD 0) := by
      intro e he
      rw [hpm]
      simp only [pyMaxD]
      refine le_foldl_max t a _ ?_
      rw [← hpm]
      exact List.mem_map.mpr ⟨e, he, rfl⟩
    unfold get_daily_weather
    rw [if_neg h]
    refine ⟨_, rfl, rfl, ⟨r, hr, ?_, hrmem, hrle, hrtie⟩, ?_, hchance_mem, hchance_le, ?_⟩
    · show (counterMostCommon _).getD "" = r
      rw [hr]
      rfl
    · intro d hd
      obtain ⟨e, he, hre⟩ := List.mem_map.mp hrmem
      show (counterMostCommon _).getD "" = d
      rw [hr]
      show r = d
      exact hre ▸ hd e he
    · intro hnone
      have hz : ∀ x ∈ (workingSet today l).map (fun e => e.pop.getD 0), x = 0 := by
        intro x hx
        obtain ⟨e, he, hxe⟩ := List.mem_map.mp hx
        rw [← hxe, hnone e he]
        rfl
      exact hz _ hchance_mem

/-- C5 witness: a concrete all-today response has a result; the
aggregation theorem applies to it. -/
theorem weather_aggregation_spec_witness :
    (get_daily_weather "2026-02-03"
      [⟨some "2026-02-03 00:00:00", 10, "clear sky", some 1⟩]).isSome = true := by
  obtain ⟨res, hres, -⟩ :=
    weather_aggregation_spec "2026-02-03"
      [⟨some "2026-02-03 00:00:00", 10, "clear sky", some 1⟩]
      [⟨some "2026-02-03 00:00:00", 10, "clear sky", some 1⟩] rfl (by decide)
  rw [hres]
  rfl

/-! ## Helper lemmas for the snippet collapse -/

/-- Words produced by the split worker are nonempty and contain no
whitespace, provided the pending accumulator contains none. -/
theorem pySplitGo_words (l : List Char) : ∀ acc : List Char,
    (∀ c ∈ acc, isPySpace c = false) →
    ∀ w ∈ pySplitGo l acc, w ≠ [] ∧ ∀ c ∈ w, isPySpace c = false := by
  induction l with
  | nil =>
    intro acc hacc w hw
    by_cases ha : acc = []
    · simp [pySplitGo, ha] at hw
    · simp only [pySplitGo, if_neg ha, List.mem_singleton] at hw
      subst hw
      refine ⟨by simpa using ha, ?_⟩
      intro c hc
      exact hacc c (List.mem_reverse.mp hc)
  | cons c cs ih =>
    intro acc hacc w hw
    by_cases hsp : isPySpace c = true
    · by_cases ha : acc = []
      · simp only [pySplitGo, if_pos hsp, if_pos ha] at hw
        exact ih [] (by simp) w hw
      · simp only [pySplitGo, if_pos hsp, if_neg ha, List.mem_cons] at hw
        rcases hw with rfl | hw
        · refine ⟨by simpa using ha, ?_⟩
          intro d hd
          exact hacc d (List.mem_reverse.mp hd)
        · exact ih [] (by simp) w hw
    · have hspf : isPySpace c = false := by simpa using hsp
      simp only [pySplitGo, if_neg hsp] at hw
      refine ih (c :: acc) ?_ w hw
      intro d hd
      rcases List.mem_cons.mp hd with rfl | hd'
      · exact hspf
      · exact hacc d hd'

/-- Joining nonempty words yields a nonempty text. -/
theorem pyJoin_ne_nil (sep : List Char) (w : List Char) (ws : List (List Char))
    (hw : w ≠ []) : pyJoin sep (w :: ws) ≠ [] := by
  cases ws with
  | nil => simpa [pyJoin] using hw
  | cons w2 t =>
    show w ++ sep ++ pyJoin sep (w2 :: t) ≠ []
    rw [List.append_assoc]
    exact List.append_ne_nil_of_left_ne_nil hw _

/-- Structure of the join of a word list whose words are nonempty and
whitespace-free: any whitespace character of the result is the single
space separator, no two adjacent characters are both whitespace, and
the result neither starts nor ends with whitespace. -/
theorem pyJoin_good (ws : List (List Char))
    (hw : ∀ w ∈ ws, w ≠ [] ∧ ∀ c ∈ w, isPySpace c = false) :
    (∀ c ∈ pyJoin [' '] ws, isPySpace c = true → c = ' ') ∧
    List.Chain' (fun a b => isPySpace a = false ∨ isPySpace b = false) (pyJoin [' '] ws) ∧
    (∀ c, (pyJoin [' '] ws).head? = some c → isPySpace c = false) ∧
    (∀ c, (pyJoin [' '] ws).getLast? = some c → isPySpace c = false) := by
  induction ws with
  | nil =>
    refine ⟨?_, ?_, ?_, ?_⟩ <;> simp [pyJoin, List.chain'_nil]
  | cons w ws' ih =>
    obtain ⟨hwne, hwns⟩ := hw w (List.mem_cons_self w ws')
    cases ws' with
    | nil =>
      show _ ∧ List.Chain' _ w ∧ _
      refine ⟨?_, ?_, ?_, ?_⟩
      · intro c hc htrue
        exact absurd (hwns c hc) (by simp [htrue])
      · exact (List.pairwise_of_forall_mem_list
          (fun a ha b _ => Or.inl (hwns a ha))).chain'
      · intro c hc
        cases w with
        | nil => exact Option.noConfusion hc
        | cons x tw =>
          simp only [pyJoin, List.head?_cons, Option.some.injEq] at hc
          subst hc
          exact hwns x (List.mem_cons_self x tw)
      · intro c hc
        exact hwns c (List.mem_of_getLast?_eq_some hc)
    | cons w2 t =>
      have ihg := ih (fun v hv => hw v (List.mem_cons_of_mem w hv))
      have hrest_ne : pyJoin [' '] (w2 :: t) ≠ [] :=
        pyJoin_ne_nil [' '] w2 t (hw w2 (by simp)).1
      have hassoc : pyJoin [' '] (w :: w2 :: t) =
          w ++ (' ' :: pyJoin [' '] (w2 :: t)) := by
        show w ++ [' '] ++ pyJoin [' '] (w2 :: t) = _
        rw [List.append_assoc]
        rfl
      rw [hassoc]
      refine ⟨?_, ?_, ?_, ?_⟩
      · intro c hc htrue
        rcases List.mem_append.mp hc with hcw | hcr
        · exact absurd htrue (by simp [hwns c hcw])
        · rcases List.mem_cons.mp hcr with rfl | hcr'
          · rfl
          · exact ihg.1 c hcr' htrue
      · rw [List.chain'_append]
        refine ⟨(List.pairwise_of_forall_mem_list
            (fun a ha b _ => Or.inl (hwns a ha))).chain', ?_, ?_⟩
        · rw [List.chain'_cons']
          refine ⟨?_, ihg.2.1⟩
          intro y hy
          exact Or.inr (ihg.2.2.1 y hy)
        · intro x hx y _
          exact Or.inl (hwns x (List.mem_of_getLast?_eq_some hx))
      · intro c hc
        cases w with
        | nil => exact absurd rfl hwne
        | cons x tw =>
          simp only [List.cons_append, List.head?_cons, Option.some.injEq] at hc
          subst hc
          exact hwns x (List.mem_cons_self x tw)
      · intro c hc
        have h2 : (w ++ (' ' :: pyJoin [' '] (w2 :: t))).getLast? =
            (pyJoin [' '] (w2 :: t)).getLast? := by
          rw [List.getLast?_append_of_ne_nil _ (List.cons_ne_nil ' ' _)]
          exact List.getLast?_append_of_ne_nil [' '] hrest_ne
        rw [h2] at hc
        exact ihg.2.2.2 c hc

/-! ## Claim theorem: snippet extraction -/

/-- C3: the snippet is the collapsed body text truncated to its first
100 characters: it equals the collapsed text exactly when that text
has at most 100 characters, is exactly the first 100 characters when
it is longer, and is always at most 100 characters; and the collapsed
text is genuinely collapsed: its only whitespace character is the
single space, no two adjacent characters are whitespace, and it
neither starts nor ends with whitespace. -/
theorem snippet_collapse_truncate_spec (s : String) :
    (extract_snippet s).data = (collapseWS s.data).take 100 ∧
    ((collapseWS s.data).length ≤ 100 → extract_snippet s = String.mk (collapseWS s.data)) ∧
    (100 ≤ (collapseWS s.data).length → (extract_snippet s).length = 100) ∧
    (extract_snippet s).length ≤ 100 ∧
    (∀ c ∈ collapseWS s.data, isPySpace c = true → c = ' ') ∧
    List.Chain' (fun a b => isPySpace a = false ∨ isPySpace b = false) (collapseWS s.data) ∧
    (∀ c, (collapseWS s.data).head? = some c → isPySpace c = false) ∧
    (∀ c, (collapseWS s.data).getLast? = some c → isPySpace c = false) := by
  have hwords : ∀ w ∈ pySplit (pyStrip s.data), w ≠ [] ∧ ∀ c ∈ w, isPySpace c = false :=
    pySplitGo_words (pyStrip s.data) [] (by simp)
  have hgood := pyJoin_good (pySplit (pyStrip s.data)) hwords
  refine ⟨rfl, ?_, ?_, ?_, hgood.1, hgood.2.1, hgood.2.2.1, hgood.2.2.2⟩
  · intro hle
    show String.mk ((collapseWS s.data).take 100) = String.mk (collapseWS s.data)
    rw [List.take_of_length_le hle]
  · intro hge
    show ((collapseWS s.data).take 100).length = 100
    rw [List.length_take]
    omega
  · show ((collapseWS s.data).take 100).length ≤ 100
    exact List.length_take_le _ _

/-- C3 witness: a concrete short body collapses without truncation. -/
theorem snippet_collapse_truncate_spec_witness :
    (collapseWS "  a  \n b ".data).length ≤ 100 ∧
    extract_snippet "  a  \n b " = String.mk (collapseWS "  a  \n b ".data) :=
  ⟨by decide, (snippet_collapse_truncate_spec "  a  \n b ").2.1 (by decide)⟩
